import Mathlib

/-!
Shallow embedding of the LAVA dispatcher pipeline actions
(`lava_dispatcher/pipeline/actions/deploy/apply_overlay.py`,
`lava_dispatcher/pipeline/actions/deploy/overlay.py`,
`lava_dispatcher/pipeline/actions/boot/pyocd.py`) and of the scheduler
daemon's job claim (`lava_scheduler_daemon/dbjobsource.py`).

Python dictionaries are embedded as association lists inside the `Value`
type; `d[k]` (which raises `KeyError` on a missing key) is `pyIndex`,
`d.get(k)` (which returns `None` on a missing key) is `dget`, and
`k in d` is `din`.  Fallible Python code is embedded in
`Except PyError`.  The filesystem, the mount table, the set of installed
binaries and the outcome of spawned commands are modelled by an explicit
`World` record threaded through each action's `run`.
-/

set_option autoImplicit false

namespace Lava
/-- A Python value as used by these actions: a string, `None`, or a dict
(embedded as an association list via `dnil` / `dcons`). -/
inductive Value where
  | str (s : String)
  | vnone
  | dnil
  | dcons (k : String) (v : Value) (rest : Value)
deriving DecidableEq, Repr

/-- The Python exception classes these modules can raise. -/
inductive PyError where
  | keyError (k : String)
  | typeError (m : String)
  | attributeError (m : String)
  | valueError (m : String)
  | runtimeError (m : String)
  | infrastructureError (m : String)
  | jobError (m : String)
  | ioError (m : String)
  | osError (m : String)
  | tarError (m : String)
deriving DecidableEq, Repr

/-- Is this value a dict? -/
def Value.isDict : Value → Bool
  | .dnil => true
  | .dcons _ _ _ => true
  | _ => false

/-- Python `d[k]`: raises `KeyError` when the key is missing and
`TypeError` when the subscripted value is not a dict. -/
def pyIndex : Value → String → Except PyError Value
  | .dnil, k => .error (.keyError k)
  | .dcons k' v rest, k => if k' = k then .ok v else pyIndex rest k
  | _, _ => .error (.typeError "object is not subscriptable")

/-- Python `d.get(k)` (equivalently `d.get(k, None)`): returns `none` when
the key is missing; raises `AttributeError` when `d` is not a dict. -/
def dget : Value → String → Except PyError (Option Value)
  | .dnil, _ => .ok none
  | .dcons k' v rest, k => if k' = k then .ok (some v) else dget rest k
  | _, _ => .error (.attributeError "object has no attribute get")

/-- Python `k in d` on a dict; `TypeError` on a non-container. -/
def din : Value → String → Except PyError Bool
  | .dnil, _ => .ok false
  | .dcons k' _ rest, k => if k' = k then .ok true else din rest k
  | .str _, _ => .error (.typeError "requires string as left operand")
  | .vnone, _ => .error (.typeError "argument is not iterable")

/-- Python `d[k] = v`: replace the binding in place, or append it. -/
def dset : Value → String → Value → Value
  | .dnil, k, v => .dcons k v .dnil
  | .dcons k' v' rest, k, v =>
      if k' = k then .dcons k' v rest else .dcons k' v' (dset rest k v)
  | other, _, _ => other

/-- Python `d[k] = v` as a statement: item assignment raises `TypeError`
on a non-dict. -/
def dsetE (d : Value) (k : String) (v : Value) : Except PyError Value :=
  if d.isDict then .ok (dset d k v)
  else .error (.typeError "object does not support item assignment")

/-- Python `d.setdefault(k, v)`: keep an existing binding, else insert;
`AttributeError` on a non-dict. -/
def dsetdefaultE (d : Value) (k : String) (v : Value) : Except PyError Value := do
  let cur ← dget d k
  match cur with
  | some _ => pure d
  | none => pure (dset d k v)

/-- Python truthiness of an optional value (`None`/missing, the empty
string and the empty dict are falsy). -/
def truthy : Option Value → Bool
  | none => false
  | some .vnone => false
  | some (.str s) => decide (s ≠ "")
  | some .dnil => false
  | some (.dcons _ _ _) => true

/-- Python `x is not None` for the result of a `.get`. -/
def isNotNone : Option Value → Bool
  | none => false
  | some .vnone => false
  | some _ => true

/-- Using a string as a `str`: `TypeError` on anything else. -/
def asStr : Value → Except PyError String
  | .str s => .ok s
  | _ => .error (.typeError "expected a string")

/-- An opaque live connection handle; only its identity matters here. -/
structure Connection where
  id : Nat
deriving DecidableEq, Repr

/-- The parts of the outside world these actions touch: existing paths,
mount points, paths that open as valid tarballs, installed binaries, the
working directory, whether creating the overlay tarball succeeds, and
finite oracles for the output of `self._run_command` (absent entry =
failure) and of `glob.glob`. -/
structure World where
  files : List String
  mounts : List String
  validTars : List String
  tools : List String
  cwd : String
  tarCreateOk : Bool
  cmds : List (List String × String)
  checkOut : List (String × String)
  globs : List (String × List String)
deriving DecidableEq, Repr

/-- `self._run_command(cmd)` (helper on the base Action class, not under
src/): modelled by a finite oracle; `none` models the failure case in
which the helper returns a falsy result. -/
def runCmd (w : World) (cmd : List String) : Option String :=
  (w.cmds.find? (fun p => p.1 = cmd)).map Prod.snd

/-- `subprocess.check_output(cmd, shell=True)`: modelled by a finite
oracle; an absent entry models the `OSError` case. -/
def checkOutput (w : World) (cmd : String) : Except PyError String :=
  match (w.checkOut.find? (fun p => p.1 = cmd)).map Prod.snd with
  | some out => .ok out
  | none => .error (.osError cmd)

/-- `glob.glob(pat)`: modelled by a finite oracle, empty by default. -/
def globMatch (w : World) (pat : String) : List String :=
  ((w.globs.find? (fun p => p.1 = pat)).map Prod.snd).getD []

/-- `mkdtemp()` (wrapper in utils.filesystem, not under src/): returns a
fresh directory under the given base and registers it in the world. -/
def mkdtempIn (base : String) (w : World) : String × World :=
  let p := base ++ "/tmp" ++ toString w.files.length
  (p, { w with files := p :: w.files })

/-- `tarfile.open(name)` for reading.  `None` raises `ValueError`
("nothing to open"), a non-string raises `TypeError`, a missing path
raises `IOError`, and an existing path that is not a valid tarball
raises `tarfile.ReadError`, a subclass of `tarfile.TarError`. -/
def tarOpenV (w : World) (v : Option Value) : Except PyError Unit :=
  match v with
  | none => .error (.valueError "nothing to open")
  | some .vnone => .error (.valueError "nothing to open")
  | some (.str p) =>
      if p ∈ w.files then
        if p ∈ w.validTars then .ok () else .error (.tarError ("truncated header: " ++ p))
      else .error (.ioError p)
  | some _ => .error (.typeError "expected str for tar name")

/-- `tar.extractall(directory)`: extracting to `None` fails inside
`os.path.join` with an `AttributeError`; a non-string directory is a
`TypeError`; extraction itself is assumed to succeed. -/
def extractAllV (dir : Option Value) : Except PyError Unit :=
  match dir with
  | none => .error (.attributeError "NoneType has no attribute startswith")
  | some .vnone => .error (.attributeError "NoneType has no attribute startswith")
  | some (.str _) => .ok ()
  | some _ => .error (.typeError "expected str for path")

/-- `os.path.dirname`. -/
def dirname (p : String) : String :=
  String.intercalate "/" ((p.splitOn "/").dropLast)

/-- `os.path.basename`. -/
def basename (p : String) : String :=
  ((p.splitOn "/").getLast?).getD ""

/-- The body of a `try: tarfile.open(...); tar.extractall(...); tar.close()`
block: open the named tarball, then extract it into the directory. -/
def tarOpenExtract (w : World) (name dir : Option Value) : Except PyError Unit := do
  tarOpenV w name
  extractAllV dir

/-- Constant `RAMDISK_COMPRESSED_FNAME` from `utils/constants.py` (not
under src/); the value is forced to be the compressed form of
`RAMDISK_FNAME` by the gzip rename in `ExtractRamdisk.run`. -/
def RAMDISK_COMPRESSED_FNAME : String := "ramdisk.cpio.gz"

/-- Constant `RAMDISK_FNAME` from `utils/constants.py` (not under src/):
"filename has been changed by gzip" (apply_overlay.py line 243). -/
def RAMDISK_FNAME : String := "ramdisk.cpio"

/-- `ApplyOverlayImage.run` (apply_overlay.py lines 50-63).  Raises
`RuntimeError` when the recorded overlay artifact is absent or falsy and
when the recorded mount directory is not a mount point; wraps a
`tarfile.TarError` from the unpack in a `RuntimeError`. -/
def applyOverlayImage_run (data : Value) (w : World) (conn : Connection) :
    Except PyError (Value × World × Connection) := do
  let co ← pyIndex data "compress-overlay"
  let out ← dget co "output"
  if ¬ truthy out then throw (.runtimeError "Unable to find the overlay")
  let lm ← pyIndex data "loop_mount"
  let mntV ← pyIndex lm "mntdir"
  let mnt ← asStr mntV
  if mnt ∉ w.mounts then
    throw (.runtimeError ("Image overlay requested to be applied but " ++ mnt ++ " is not a mountpoint"))
  let co2 ← pyIndex data "compress-overlay"
  let out2 ← dget co2 "output"
  match tarOpenExtract w out2 (some (.str mnt)) with
  | .error (.tarError m) => throw (.runtimeError ("Unable to unpack overlay: " ++ m))
  | .error e => throw e
  | .ok _ => return (data, w, conn)

/-- The `try`/`except tarfile.TarError` tail of `ApplyOverlayTftp.run`
(apply_overlay.py lines 115-121): unpack `ofile` into `dir`, wrapping a
`TarError` in a `RuntimeError` naming the overlay type. -/
def applyOverlayTftpFinish (w : World) (otype : String) (ofile dir : Option Value)
    (data : Value) (conn : Connection) : Except PyError (Value × World × Connection) :=
  match tarOpenExtract w ofile dir with
  | .error (.tarError m) =>
      .error (.runtimeError ("Unable to unpack " ++ otype ++ " overlay: " ++ m))
  | .error e => .error e
  | .ok _ => .ok (data, w, conn)

/-- `ApplyOverlayTftp.run` (apply_overlay.py lines 103-121).  Selects the
overlay tarball and target directory according to which of the
`ramdisk` / `nfsrootfs` parameters is not `None` (`overlay_file` and
`directory` stay `None` when neither is), then unpacks. -/
def applyOverlayTftp_run (params data : Value) (w : World) (conn : Connection) :
    Except PyError (Value × World × Connection) := do
  let rd ← dget params "ramdisk"
  if isNotNone rd then
    let co ← pyIndex data "compress-overlay"
    let ofile ← dget co "output"
    let eor ← pyIndex data "extract-overlay-ramdisk"
    let dirV ← pyIndex eor "extracted_ramdisk"
    applyOverlayTftpFinish w "ramdisk" ofile (some dirV) data conn
  else
    let nfs ← dget params "nfsrootfs"
    if isNotNone nfs then
      let co ← pyIndex data "compress-overlay"
      let ofile ← dget co "output"
      let en ← pyIndex data "extract-nfsrootfs"
      let dirV ← dget en "nfsroot"
      applyOverlayTftpFinish w "nfsrootfs" ofile dirV data conn
    else
      applyOverlayTftpFinish w "" none none data conn

/-- `ExtractNfsRootfs.run` (apply_overlay.py lines 145-158).  A no-op if
the `nfsrootfs` parameter is falsy; otherwise unpacks the downloaded
rootfs into a fresh scratch directory and records it under
`extract-nfsrootfs` / `nfsroot`. -/
def extractNfsRootfs_run (params data : Value) (w : World) (conn : Connection) :
    Except PyError (Value × World × Connection) := do
  let g ← dget params "nfsrootfs"
  if ¬ truthy g then
    return (data, w, conn)
  else
    let da ← pyIndex data "download_action"
    let nf ← pyIndex da "nfsrootfs"
    let fV ← pyIndex nf "file"
    let nfsroot ← asStr fV
    let p := mkdtempIn "/var/lib/lava/dispatcher/tmp" w
    match tarOpenExtract p.2 (some (.str nfsroot)) (some (.str p.1)) with
    | .error (.tarError m) =>
        throw (.jobError ("Unable to unpack nfsroot: " ++ basename nfsroot ++ " - " ++ m))
    | .error e => throw e
    | .ok _ =>
      let entry ← pyIndex data "extract-nfsrootfs"
      let entry2 ← dsetdefaultE entry "nfsroot" (.str p.1)
      return (dset data "extract-nfsrootfs" entry2, p.2, conn)

/-- `ExtractModules.run` (apply_overlay.py lines 177-199).  A no-op if
the `modules` parameter is falsy; picks the unpack root from the ramdisk
or nfs data, unpacks the modules tarball there (wrapping `TarError` in
`RuntimeError`) and unlinks the tarball (wrapping `OSError`). -/
def extractModules_run (params data : Value) (w : World) (conn : Connection) :
    Except PyError (Value × World × Connection) := do
  let m ← dget params "modules"
  if ¬ truthy m then
    return (data, w, conn)
  else
    let rd ← dget params "ramdisk"
    let root ←
      if ¬ truthy rd then do
        let nfs ← dget params "nfsrootfs"
        if ¬ truthy nfs then
          throw (.runtimeError "Unable to identify unpack location")
        else
          let en ← pyIndex data "extract-nfsrootfs"
          pyIndex en "nfsroot"
      else do
        let eor ← pyIndex data "extract-overlay-ramdisk"
        pyIndex eor "extracted_ramdisk"
    let da ← pyIndex data "download_action"
    let mo ← pyIndex da "modules"
    let fV ← pyIndex mo "file"
    match tarOpenExtract w (some fV) (some root) with
    | .error (.tarError m2) => throw (.runtimeError ("Unable to extract tarball: " ++ m2))
    | .error e => throw e
    | .ok _ =>
      let path ← asStr fV
      if path ∈ w.files then
        return (data, { w with files := w.files.erase path }, conn)
      else
        throw (.runtimeError ("Unable to remove tarball: " ++ path))

/-- `ExtractRamdisk.run` (apply_overlay.py lines 221-254).  A no-op if
the `ramdisk` parameter is falsy; otherwise strips an optional u-boot
header, gunzips and un-cpios the ramdisk into a fresh directory and
records `extracted_ramdisk` / `ramdisk_file`.  The identity comparison
with the interned empty string on line 241 is modelled as string
inequality with the empty output. -/
def extractRamdisk_run (params data : Value) (w : World) (conn : Connection) :
    Except PyError (Value × World × Connection) := do
  let g ← dget params "ramdisk"
  if ¬ truthy g then
    return (data, w, conn)
  else
    let da ← pyIndex data "download_action"
    let rdm ← pyIndex da "ramdisk"
    let fV ← pyIndex rdm "file"
    let ramdisk ← asStr fV
    let p := mkdtempIn "/tmp" w
    let extracted := p.1 ++ "/ramdisk"
    let w2 := { p.2 with files := extracted :: p.2.files }
    let compressed := p.1 ++ "/" ++ RAMDISK_COMPRESSED_FNAME
    let rt ← dget params "ramdisk-type"
    let w3 ←
      if rt = some (.str "u-boot") then
        match runCmd w2 ["dd", "if=" ++ ramdisk, "of=" ++ compressed, "ibs=64", "skip=1"] with
        | some _ => pure { w2 with files := compressed :: w2.files }
        | none => throw (.runtimeError ("Unable to remove uboot header: " ++ ramdisk))
      else
        if ramdisk ∈ w2.files then
          pure { w2 with files := compressed :: w2.files.erase ramdisk }
        else
          throw (.osError ("rename: " ++ ramdisk))
    match runCmd w3 ["gzip", "-d", "-f", compressed] with
    | none => throw (.runtimeError ("Unable to uncompress: " ++ compressed))
    | some out =>
      if out ≠ "" then
        throw (.runtimeError ("Unable to uncompress: " ++ compressed))
      else
        let ramdiskData := p.1 ++ "/" ++ RAMDISK_FNAME
        let w4 := { w3 with files := ramdiskData :: w3.files.erase compressed, cwd := extracted }
        match runCmd w4 ["cpio", "-i", "-F", ramdiskData] with
        | none => throw (.runtimeError ("Unable to uncompress: " ++ ramdiskData))
        | some out2 =>
          if out2 = "" then
            throw (.runtimeError ("Unable to uncompress: " ++ ramdiskData))
          else
            let w5 := { w4 with cwd := w.cwd }
            let entry ← pyIndex data "extract-overlay-ramdisk"
            let entry1 ← dsetE entry "extracted_ramdisk" (.str extracted)
            let entry2 ← dsetE entry1 "ramdisk_file" (.str ramdiskData)
            return (dset data "extract-overlay-ramdisk" entry2, w5, conn)

/-- `CompressRamdisk.run` (apply_overlay.py lines 276-312).  A no-op if
the `ramdisk` parameter is falsy; re-creates the cpio archive from the
unpacked ramdisk (wrapping `OSError` from `check_output` in
`RuntimeError`), gzips it, optionally adds a u-boot header, moves the
result next to the downloaded ramdisk and records it under
`compress-ramdisk` / `ramdisk`. -/
def compressRamdisk_run (params data : Value) (w : World) (conn : Connection) :
    Except PyError (Value × World × Connection) := do
  let g ← dget params "ramdisk"
  if ¬ truthy g then
    return (data, w, conn)
  else
    let eor ← pyIndex data "extract-overlay-ramdisk"
    let h1 ← din eor "extracted_ramdisk"
    if ¬ h1 then throw (.runtimeError "Unable to find unpacked ramdisk")
    let h2 ← din eor "ramdisk_file"
    if ¬ h2 then throw (.runtimeError "Unable to find ramdisk directory")
    let rdirV ← pyIndex eor "extracted_ramdisk"
    let rdir ← asStr rdirV
    let rdataV ← pyIndex eor "ramdisk_file"
    let rdata ← asStr rdataV
    let w1 := { w with cwd := rdir }
    match checkOutput w1 ("find . | cpio --create --format=newc > " ++ rdata) with
    | .error (.osError m) => throw (.runtimeError ("Unable to create cpio filesystem: " ++ m))
    | .error e => throw e
    | .ok _log =>
      let w2 := { w1 with cwd := dirname rdata }
      match runCmd w2 ["gzip", rdata] with
      | none => throw (.runtimeError "Unable to compress cpio filesystem")
      | some out =>
        if out ≠ "" then
          throw (.runtimeError "Unable to compress cpio filesystem")
        else
          let w3 := { w2 with files := (rdata ++ ".gz") :: w2.files.erase rdata, cwd := w.cwd }
          let finalFile := dirname rdata ++ "/ramdisk.cpio.gz"
          let da ← pyIndex data "download_action"
          let rdm ← pyIndex da "ramdisk"
          let dfV ← pyIndex rdm "file"
          let df ← asStr dfV
          let tftpDir := dirname df
          let rt ← dget params "ramdisk-type"
          let fw ←
            if rt = some (.str "u-boot") then
              match runCmd w3 ["mkimage", "-A", "arm", "-T", "ramdisk", "-C", "none", "-d",
                  finalFile, finalFile ++ ".uboot"] with
              | none => throw (.runtimeError "Unable to add uboot header to ramdisk")
              | some out2 =>
                if out2 = "" then
                  throw (.runtimeError "Unable to add uboot header to ramdisk")
                else
                  pure (finalFile ++ ".uboot",
                    { w3 with files := (finalFile ++ ".uboot") :: w3.files })
            else
              pure (finalFile, w3)
          if fw.1 ∈ fw.2.files then
            let w5 := { fw.2 with files := (tftpDir ++ "/" ++ basename fw.1) :: fw.2.files.erase fw.1 }
            let entry ← pyIndex data "compress-ramdisk"
            let entry1 ← dsetE entry "ramdisk" (.str fw.1)
            return (dset data "compress-ramdisk" entry1, w5, conn)
          else
            throw (.osError ("rename: " ++ fw.1))

/-- `CompressOverlay.run` (overlay.py lines 216-237).  Checks that the
overlay scratch location is recorded and exists, skips (returning the
connection) when the action is invalid, archives the scratch tree and
records the tarball path under `compress-overlay` / `output`.
`self.valid` (base Action class, not under src/) is modelled from the
spec as the absence of recorded errors, and the base `Action.run` called
on line 224 as the identity on the connection.  On the `TarError` branch
the appended error message is unobservable past the raise in this
`Except` embedding. -/
def compressOverlay_run (outputDir level : String) (errors : List String)
    (data : Value) (w : World) (conn : Connection) :
    Except PyError (Value × World × Connection) := do
  let lo ← pyIndex data "lava-overlay"
  let hasLoc ← din lo "location"
  if ¬ hasLoc then throw (.runtimeError "Missing lava overlay location")
  let locV ← pyIndex lo "location"
  let loc ← asStr locV
  if loc ∉ w.files then throw (.runtimeError "Unable to find overlay location")
  if ¬ errors.isEmpty then
    return (data, w, conn)
  else
    let output := outputDir ++ "/overlay-" ++ level ++ ".tar.gz"
    let _ltr ← pyIndex data "lava_test_results_dir"
    if ¬ w.tarCreateOk then throw (.runtimeError "Unable to create lava overlay tarball")
    let w1 := { w with files := output :: w.files }
    let entry ← pyIndex data "compress-overlay"
    let entry1 ← dsetE entry "output" (.str output)
    return (dset data "compress-overlay" entry1, w1, conn)

/-- Modelled from the spec: the errors setter of the base Action class
(`action.py`, not under src/) appends the failure message to the
Action's errors list ("Failures append to errors and set the Action
invalid"). -/
def set_errors (errors : List String) (msg : String) : List String :=
  errors ++ [msg]

/-- Modelled from the spec: an Action is valid exactly when its errors
list is empty (base Action class, not under src/). -/
def action_valid (errors : List String) : Bool := errors.isEmpty

/-- Modelled from the spec: `infrastructure_error` (utils/shell.py, not
under src/) checks that a required external binary is available and
returns an error message, rather than raising, when it is not; a falsy
result means the binary is present. -/
def infrastructure_error (w : World) (path : String) : Option String :=
  if path ∈ w.tools then none else some ("Cannot find command in PATH: " ++ path)

/-- Modelled from the spec: `which` (utils/shell.py, not under src/)
raises `InfrastructureError` when the required binary is missing. -/
def whichTool (w : World) (name : String) : Except PyError String :=
  if name ∈ w.tools then .ok name
  else .error (.infrastructureError ("Cannot find command: " ++ name))

/-- `ExtractNfsRootfs.validate` (apply_overlay.py lines 134-143).
Returns the updated errors list.  The idempotency guard returns early;
a missing `download_action` entry or a missing `file` entry appends to
the errors; but a missing `/usr/sbin/exportfs` binary raises
`InfrastructureError` (line 143).  The base `validate` (not under src/)
is modelled from the spec as contributing no errors here. -/
def extractNfsRootfs_validate (params data : Value) (w : World) (errors : List String) :
    Except PyError (List String) := do
  let g ← dget params "nfsrootfs"
  if ¬ truthy g then
    return errors
  else
    let hasDl ← din data "download_action"
    let errs ←
      if ¬ hasDl then
        pure (set_errors errors "missing download_action in parameters")
      else do
        let da ← pyIndex data "download_action"
        let nf ← pyIndex da "nfsrootfs"
        let hasFile ← din nf "file"
        if ¬ hasFile then
          pure (set_errors errors "no file specified extract as nfsrootfs")
        else
          pure errors
    if "/usr/sbin/exportfs" ∈ w.files then
      return errs
    else
      throw (.infrastructureError "NFS job requested but nfs-kernel-server not installed.")

/-- `CompressRamdisk.validate` (apply_overlay.py lines 267-274).  The
idempotency guard returns early; a missing `mkimage` binary re-raises
`InfrastructureError` instead of appending to the errors. -/
def compressRamdisk_validate (params : Value) (w : World) (errors : List String) :
    Except PyError (List String) := do
  let g ← dget params "ramdisk"
  if ¬ truthy g then
    return errors
  else
    match whichTool w "mkimage" with
    | .ok _ => return errors
    | .error _ => throw (.infrastructureError "Unable to find mkimage - is u-boot-tools installed?")

/-- `OverlayAction.validate` (overlay.py lines 80-89).  Collects the
generic and distro-specific support scripts via `glob.glob`; appends an
error when none are found. -/
def overlayAction_validate (lavaTestDir : String) (params : Value) (w : World)
    (errors : List String) : Except PyError (List String) := do
  let s1 := globMatch w (lavaTestDir ++ "/lava-*")
  let dd ← pyIndex params "deployment_data"
  let distroV ← pyIndex dd "distro"
  let distro ← asStr distroV
  let s2 := globMatch w (lavaTestDir ++ "/distro/" ++ distro ++ "/lava-*")
  if (s1 ++ s2).isEmpty then
    return (set_errors errors "Unable to locate lava_test_shell support scripts.")
  else
    return errors

/-- Modelled from the spec: `Pipeline.validate` (pipeline driver in
`action.py`, not under src/) calls each child's `validate` in order,
"unconditionally continuing past a child that recorded an error"; a
child that raises aborts the pass, since nothing catches it. -/
def pipeline_validate (children : List (List String → Except PyError (List String)))
    (errors : List String) : Except PyError (List String) :=
  match children with
  | [] => .ok errors
  | c :: rest => do
      let errs ← c errors
      pipeline_validate rest errs

/-- `BootMonitorPyOCD.accepts` (pyocd.py lines 44-54).  Reads only its
two arguments and touches no hardware, filesystem or store; the nested
subscripts on `device` raise `KeyError` when a level is missing. -/
def bootMonitorPyOCD_accepts (device params : Value) : Except PyError Bool := do
  let a ← pyIndex device "actions"
  let b ← pyIndex a "boot"
  let m ← pyIndex b "methods"
  let hasPyocd ← din m "pyocd"
  if ¬ hasPyocd then
    return false
  else
    let hasMethod ← din params "method"
    if ¬ hasMethod then
      return false
    else
      let mv ← pyIndex params "method"
      if mv ≠ .str "monitor" then
        return false
      else
        let hasBoard ← din device "board_id"
        if ¬ hasBoard then
          return false
        else
          return true

/-! ## Scheduler daemon: the claim transaction

`DatabaseJobSource.getJobForBoard_impl` (dbjobsource.py lines 30-61) is
embedded as a small-step state machine over a database of device and job
rows.  One iteration of the `while True` loop is split into three atomic
steps, each at least as coarse as the real database accesses (a coarser
split only removes interleavings, so any race exhibited here exists in
the source): reading the device and its queued jobs, saving the device
row (where the unique constraint on `current_job` can raise
`IntegrityError`, causing a rollback and a retry of the whole claim),
and saving the job row plus commit. -/

/-- `Device.status`: only `IDLE` and `RUNNING` matter to the claim. -/
inductive DStatus where
  | idle
  | running
deriving DecidableEq, Repr

/-- `TestJob.status`: only `SUBMITTED` and `RUNNING` matter here. -/
inductive JStatus where
  | submitted
  | running
deriving DecidableEq, Repr

/-- A `Device` row: status and the unique-constrained `current_job`. -/
structure DeviceRow where
  status : DStatus
  currentJob : Option Nat
deriving DecidableEq, Repr

/-- A `TestJob` row: status and the board it targets. -/
structure JobRow where
  status : JStatus
  target : String
deriving DecidableEq, Repr

/-- The scheduler database: device rows keyed by hostname and job rows
keyed by job id. -/
structure SchedDB where
  devices : List (String × DeviceRow)
  jobs : List (Nat × JobRow)
deriving DecidableEq, Repr

/-- `Device.objects.get(hostname=board_name)`. -/
def getDevice (db : SchedDB) (board : String) : Option DeviceRow :=
  (db.devices.find? (fun p => p.1 = board)).map Prod.snd

/-- `TestJob.objects.filter(target=device, status=SUBMITTED)[:1]`: the
first queued job for the board.  (The `order_by` result on line 38 of
dbjobsource.py is discarded by the source, so default ordering applies.) -/
def firstSubmitted (db : SchedDB) (board : String) : Option (Nat × JobRow) :=
  db.jobs.find? (fun p => p.2.target = board ∧ p.2.status = .submitted)

/-- Write a device row. -/
def setDevice (db : SchedDB) (board : String) (row : DeviceRow) : SchedDB :=
  { db with devices := db.devices.map (fun p => if p.1 = board then (board, row) else p) }

/-- Write a job row. -/
def setJob (db : SchedDB) (jid : Nat) (row : JobRow) : SchedDB :=
  { db with jobs := db.jobs.map (fun p => if p.1 = jid then (jid, row) else p) }

/-- The unique constraint on `Device.current_job`: saving `board` with
`current_job = jid` conflicts exactly when a *different* device row
already holds `jid`. -/
def uniqueViolated (db : SchedDB) (board : String) (jid : Nat) : Bool :=
  db.devices.any (fun p => p.1 ≠ board ∧ p.2.currentJob = some jid)

/-- The control point of one invocation of `getJobForBoard_impl`. -/
inductive ClaimPhase where
  | start
  | save (dev : DeviceRow) (jid : Nat) (job : JobRow)
  | commit (jid : Nat) (job : JobRow)
  | done (result : Option Nat)
  | errored
deriving DecidableEq, Repr

/-- One atomic step of `getJobForBoard_impl` for `board`.

`start` performs lines 33-45: read the device (a missing row is the
`DoesNotExist` exception), return `None` if it is not idle, read the
first queued job, return `None` if there is none, else build the local
updated rows.  `save` performs `device.save()` (lines 46-55): on a
uniqueness conflict, roll back (no write has happened yet) and restart
the loop, else write the device row.  `commit` performs `job.save()`
plus `transaction.commit()` and returns the job (lines 57-59). -/
def claimStep (board : String) (db : SchedDB) (ph : ClaimPhase) : SchedDB × ClaimPhase :=
  match ph with
  | .start =>
      match getDevice db board with
      | none => (db, .errored)
      | some dev =>
          if dev.status ≠ .idle then (db, .done none)
          else
            match firstSubmitted db board with
            | none => (db, .done none)
            | some (jid, jr) =>
                (db, .save { status := .running, currentJob := some jid } jid
                  { jr with status := .running })
  | .save dev jid jr =>
      if uniqueViolated db board jid then (db, .start)
      else (setDevice db board dev, .commit jid jr)
  | .commit jid jr => (setJob db jid jr, .done (some jid))
  | .done r => (db, .done r)
  | .errored => (db, .errored)

/-- Two concurrent invocations of `getJobForBoard_impl` for the same
board: the shared database and each invocation's control point. -/
structure ClaimRace where
  db : SchedDB
  phA : ClaimPhase
  phB : ClaimPhase
deriving DecidableEq, Repr

/-- Let invocation A (`true`) or B (`false`) take its next atomic step. -/
def raceStep (board : String) (s : ClaimRace) (who : Bool) : ClaimRace :=
  if who then
    let r := claimStep board s.db s.phA
    { db := r.1, phA := r.2, phB := s.phB }
  else
    let r := claimStep board s.db s.phB
    { db := r.1, phA := s.phA, phB := r.2 }

/-- Run both invocations under an explicit interleaving schedule. -/
def raceRun (board : String) (s : ClaimRace) (sched : List Bool) : ClaimRace :=
  sched.foldl (raceStep board) s

/-- A single invocation run to completion (serial semantics), with fuel
bounding the retry loop. -/
def runClaim (board : String) : Nat → SchedDB → ClaimPhase → SchedDB × ClaimPhase
  | 0, db, ph => (db, ph)
  | fuel + 1, db, ph =>
      match ph with
      | .done r => (db, .done r)
      | .errored => (db, .errored)
      | _ =>
          let r := claimStep board db ph
          runClaim board fuel r.1 r.2

/-- Does the dict bind this key? -/
def hasKey : Value → String → Bool
  | .dcons k' _ rest, k => k' = k || hasKey rest k
  | _, _ => false

/-- Read `data[a].get(k)` when both levels resolve, else `none`. -/
def storeGet2 (data : Value) (a k : String) : Option Value :=
  match pyIndex data a with
  | .ok e =>
      match dget e k with
      | .ok o => o
      | .error _ => none
  | .error _ => none

/-- An empty world: no files, mounts, tars, tools or command oracle. -/
def emptyWorld : World :=
  { files := [], mounts := [], validTars := [], tools := [], cwd := "/",
    tarCreateOk := true, cmds := [], checkOut := [], globs := [] }

/-- A well-formed dict: the association spine is `dnil`/`dcons` all the
way down (as every Python dict object is). -/
def wfDict : Value → Bool
  | .dnil => true
  | .dcons _ _ rest => wfDict rest
  | _ => false

/-- The precondition under which `ApplyOverlayTftp.run` can possibly
succeed, transcribed from the claim: at least one of the `ramdisk` /
`nfsrootfs` parameters is present (not `None`), the compressed overlay
path is recorded, and the matching extraction directory is recorded. -/
def tftpPrecond (params data : Value) : Bool :=
  match dget params "ramdisk" with
  | .error _ => false
  | .ok rd =>
    if isNotNone rd then
      (match pyIndex data "compress-overlay" with
       | .ok co =>
           match dget co "output" with
           | .ok (some (.str _)) => true
           | _ => false
       | .error _ => false)
      &&
      (match pyIndex data "extract-overlay-ramdisk" with
       | .ok eor =>
           match pyIndex eor "extracted_ramdisk" with
           | .ok (.str _) => true
           | _ => false
       | .error _ => false)
    else
      match dget params "nfsrootfs" with
      | .error _ => false
      | .ok nfs =>
        isNotNone nfs &&
        (match pyIndex data "compress-overlay" with
         | .ok co =>
             match dget co "output" with
             | .ok (some (.str _)) => true
             | _ => false
         | .error _ => false)
        &&
        (match pyIndex data "extract-nfsrootfs" with
         | .ok en =>
             match dget en "nfsroot" with
             | .ok (some (.str _)) => true
             | _ => false
         | .error _ => false)

/-- A value that represents an actual Python object: every dict spine in
it, at any nesting depth, is `dnil`/`dcons`-terminated. -/
def wfValue : Value → Bool
  | .str _ => true
  | .vnone => true
  | .dnil => true
  | .dcons _ v rest => wfValue v && rest.isDict && wfValue rest

/-- Concrete deploy parameters with an `nfsrootfs` entry. -/
def c1params : Value := .dcons "nfsrootfs" (.str "nfs.tgz") .dnil

/-- Concrete parameters carrying `deployment_data.distro`. -/
def c1ovParams : Value := .dcons "deployment_data" (.dcons "distro" (.str "debian") .dnil) .dnil

/-- A world in which `/usr/sbin/exportfs` is installed but no support
scripts match any glob. -/
def c1World : World := { emptyWorld with files := ["/usr/sbin/exportfs"] }

/-- Concrete deploy parameters for the C2 counterexample. -/
def c2params : Value := .dcons "modules" (.str "m.tgz") (.dcons "nfsrootfs" (.str "n.tgz") .dnil)

/-- The C3 scenario: one idle device and one queued job targeting it. -/
def c3db : SchedDB :=
  { devices := [("panda01", { status := .idle, currentJob := none })],
    jobs := [(5, { status := .submitted, target := "panda01" })] }

/-- Both claimants for the same board start at the top of the loop. -/
def c3race : ClaimRace := { db := c3db, phA := .start, phB := .start }

/-- Parameters selecting the ramdisk branch of `ApplyOverlayTftp.run`. -/
def c9okParams : Value := .dcons "ramdisk" (.str "ramdisk.gz") .dnil

/-- A store holding the overlay output and the extracted ramdisk dir. -/
def c9okData : Value :=
  .dcons "compress-overlay" (.dcons "output" (.str "/ov.tar.gz") .dnil)
    (.dcons "extract-overlay-ramdisk" (.dcons "extracted_ramdisk" (.str "/d") .dnil) .dnil)

/-- A world in which the overlay tarball exists and is a valid tar. -/
def c9okWorld : World := { emptyWorld with files := ["/ov.tar.gz"], validTars := ["/ov.tar.gz"] }

def c5data : Value :=
  .dcons "lava-overlay" (.dcons "location" (.str "/scr") .dnil)
    (.dcons "lava_test_results_dir" (.str "/lava-1") (.dcons "compress-overlay" .dnil .dnil))

def c5World : World := { emptyWorld with files := ["/scr"] }

def c5result : Value × World × Connection :=
  (.dcons "lava-overlay" (.dcons "location" (.str "/scr") .dnil)
    (.dcons "lava_test_results_dir" (.str "/lava-1")
      (.dcons "compress-overlay" (.dcons "output" (.str "/out/overlay-1.4.tar.gz") .dnil) .dnil)),
   { emptyWorld with files := ["/out/overlay-1.4.tar.gz", "/scr"] }, ⟨4⟩)

def c4device : Value :=
  .dcons "actions"
    (.dcons "boot" (.dcons "methods" (.dcons "pyocd" .dnil .dnil) .dnil) .dnil)
    (.dcons "board_id" (.str "0001") .dnil)

def c4params : Value := .dcons "method" (.str "monitor") .dnil

def c6data : Value :=
  .dcons "compress-overlay" (.dcons "output" (.str "/ov6.tar.gz") .dnil)
    (.dcons "loop_mount" (.dcons "mntdir" (.str "/mnt") .dnil) .dnil)

def c6World : World :=
  { emptyWorld with files := ["/ov6.tar.gz"], validTars := ["/ov6.tar.gz"], mounts := ["/mnt"] }

/-! ## Theorems -/

theorem wfDict_isDict {d : Value} (h : wfDict d = true) : d.isDict = true := by
  cases d <;> simp_all [wfDict, Value.isDict]

@[simp] theorem exceptBind_def {ε α β : Type} (m : Except ε α) (f : α → Except ε β) :
    m >>= f = match m with | .error e => .error e | .ok a => f a := by
  cases m <;> rfl

@[simp] theorem exceptMap_def {ε α β : Type} (g : α → β) (m : Except ε α) :
    g <$> m = match m with | .error e => .error e | .ok a => .ok (g a) := by
  cases m <;> rfl

@[simp] theorem exceptPure_def {ε α : Type} (a : α) : (pure a : Except ε α) = .ok a := rfl

@[simp] theorem exceptThrow_def {ε α : Type} (e : ε) : (throw e : Except ε α) = .error e := rfl

theorem pyIndex_isDict {d : Value} {k : String} {v : Value}
    (h : pyIndex d k = .ok v) : d.isDict = true := by
  cases d <;> simp_all [pyIndex, Value.isDict]

theorem pyIndex_hasKey {d : Value} {k : String} {v : Value}
    (h : pyIndex d k = .ok v) : hasKey d k = true := by
  induction d with
  | str s => simp [pyIndex] at h
  | vnone => simp [pyIndex] at h
  | dnil => simp [pyIndex] at h
  | dcons k' v' rest ihv ihr =>
      by_cases hk : k' = k
      · simp [hasKey, hk]
      · simp only [pyIndex, if_neg hk] at h
        simp [hasKey, hk, ihr h]

theorem hasKey_pyIndex {d : Value} {k : String} (h : hasKey d k = true) :
    ∃ v, pyIndex d k = .ok v := by
  induction d with
  | str s => simp [hasKey] at h
  | vnone => simp [hasKey] at h
  | dnil => simp [hasKey] at h
  | dcons k' v' rest ihv ihr =>
      by_cases hk : k' = k
      · exact ⟨v', by simp [pyIndex, hk]⟩
      · simp only [hasKey, hk, decide_False, Bool.false_or] at h
        obtain ⟨v, hv⟩ := ihr h
        exact ⟨v, by simp [pyIndex, hk, hv]⟩

theorem din_dict {d : Value} (k : String) (h : wfDict d = true) :
    din d k = .ok (hasKey d k) := by
  induction d with
  | str s => simp [wfDict] at h
  | vnone => simp [wfDict] at h
  | dnil => simp [din, hasKey]
  | dcons k' v' rest ihv ihr =>
      by_cases hk : k' = k
      · simp [din, hasKey, hk]
      · simp only [wfDict] at h
        simp [din, hasKey, hk, ihr h]

theorem dget_dict {d : Value} (k : String) (h : wfDict d = true) :
    ∃ o, dget d k = .ok o := by
  induction d with
  | str s => simp [wfDict] at h
  | vnone => simp [wfDict] at h
  | dnil => exact ⟨none, rfl⟩
  | dcons k' v' rest ihv ihr =>
      by_cases hk : k' = k
      · exact ⟨some v', by simp [dget, hk]⟩
      · simp only [wfDict] at h
        obtain ⟨o, ho⟩ := ihr h
        exact ⟨o, by simp [dget, hk, ho]⟩

theorem dget_absent {d : Value} {k : String} (hd : wfDict d = true)
    (h : hasKey d k = false) : dget d k = .ok none := by
  induction d with
  | str s => simp [wfDict] at hd
  | vnone => simp [wfDict] at hd
  | dnil => rfl
  | dcons k' v' rest ihv ihr =>
      by_cases hk : k' = k
      · simp [hasKey, hk] at h
      · simp only [hasKey, hk, decide_False, Bool.false_or] at h
        simp only [wfDict] at hd
        simp [dget, hk, ihr hd h]

theorem dget_hasKey_some {d : Value} {k : String} {v : Value}
    (h : dget d k = .ok (some v)) : hasKey d k = true := by
  induction d with
  | str s => simp [dget] at h
  | vnone => simp [dget] at h
  | dnil => simp [dget] at h
  | dcons k' v' rest ihv ihr =>
      by_cases hk : k' = k
      · simp [hasKey, hk]
      · simp only [dget, if_neg hk] at h
        simp [hasKey, hk, ihr h]

theorem wfDict_dset {d : Value} {k : String} {v : Value} (h : wfDict d = true) :
    wfDict (dset d k v) = true := by
  induction d with
  | str s => simp [wfDict] at h
  | vnone => simp [wfDict] at h
  | dnil => simp [dset, wfDict]
  | dcons k' v' rest ihv ihr =>
      simp only [wfDict] at h
      by_cases hk : k' = k
      · simp [dset, hk, wfDict, h]
      · simp [dset, hk, wfDict, ihr h]

theorem pyIndex_dset {d : Value} (k : String) (v : Value) (hd : wfDict d = true) :
    pyIndex (dset d k v) k = .ok v := by
  induction d with
  | str s => simp [wfDict] at hd
  | vnone => simp [wfDict] at hd
  | dnil => simp [dset, pyIndex]
  | dcons k' v' rest ihv ihr =>
      simp only [wfDict] at hd
      by_cases hk : k' = k
      · simp [dset, hk, pyIndex]
      · simp [dset, hk, pyIndex, ihr hd]

theorem dget_dset {d : Value} (k : String) (v : Value) (hd : wfDict d = true) :
    dget (dset d k v) k = .ok (some v) := by
  induction d with
  | str s => simp [wfDict] at hd
  | vnone => simp [wfDict] at hd
  | dnil => simp [dset, dget]
  | dcons k' v' rest ihv ihr =>
      simp only [wfDict] at hd
      by_cases hk : k' = k
      · simp [dset, hk, dget]
      · simp [dset, hk, dget, ihr hd]

theorem pyIndex_absent {d : Value} {k : String} (hd : wfDict d = true)
    (h : hasKey d k = false) : pyIndex d k = .error (.keyError k) := by
  induction d with
  | str s => simp [wfDict] at hd
  | vnone => simp [wfDict] at hd
  | dnil => rfl
  | dcons k' v' rest ihv ihr =>
      by_cases hk : k' = k
      · simp [hasKey, hk] at h
      · simp only [hasKey, hk, decide_False, Bool.false_or] at h
        simp only [wfDict] at hd
        simp [pyIndex, hk, ihr hd h]

theorem tarOpenV_ok {w : World} {o : Option Value} {u : Unit} (h : tarOpenV w o = .ok u) :
    ∃ p, o = some (.str p) ∧ p ∈ w.files ∧ p ∈ w.validTars := by
  cases o with
  | none => simp [tarOpenV] at h
  | some v =>
    cases v with
    | str p =>
        refine ⟨p, rfl, ?_, ?_⟩ <;>
          (by_cases h1 : p ∈ w.files <;> by_cases h2 : p ∈ w.validTars <;> simp_all [tarOpenV])
    | vnone => simp [tarOpenV] at h
    | dnil => simp [tarOpenV] at h
    | dcons k v rest => simp [tarOpenV] at h

theorem extractAllV_ok {d : Option Value} {u : Unit} (h : extractAllV d = .ok u) :
    ∃ s, d = some (.str s) := by
  cases d with
  | none => simp [extractAllV] at h
  | some v =>
    cases v with
    | str s => exact ⟨s, rfl⟩
    | vnone => simp [extractAllV] at h
    | dnil => simp [extractAllV] at h
    | dcons k v rest => simp [extractAllV] at h

theorem tarOpenExtract_ok {w : World} {o d : Option Value} {u : Unit}
    (h : tarOpenExtract w o d = .ok u) :
    (∃ p, o = some (.str p) ∧ p ∈ w.files ∧ p ∈ w.validTars) ∧ ∃ s, d = some (.str s) := by
  unfold tarOpenExtract at h
  cases ht : tarOpenV w o with
  | error e => simp [ht] at h
  | ok a => exact ⟨tarOpenV_ok ht, extractAllV_ok (by simpa [ht] using h)⟩

theorem runClaim_done (board : String) (fuel : Nat) (db : SchedDB) (r : Option Nat) :
    runClaim board fuel db (.done r) = (db, .done r) := by
  cases fuel <;> rfl

theorem wfValue_wfDict {d : Value} (hv : wfValue d = true) (hd : d.isDict = true) :
    wfDict d = true := by
  induction d with
  | str s => simp [Value.isDict] at hd
  | vnone => simp [Value.isDict] at hd
  | dnil => rfl
  | dcons k v rest ihv ihr =>
      simp only [wfValue, Bool.and_eq_true] at hv
      exact ihr hv.2 hv.1.2

theorem wfValue_pyIndex {d : Value} {k : String} {v : Value}
    (hd : wfValue d = true) (h : pyIndex d k = .ok v) : wfValue v = true := by
  induction d with
  | str s => simp [pyIndex] at h
  | vnone => simp [pyIndex] at h
  | dnil => simp [pyIndex] at h
  | dcons k' v' rest ihv ihr =>
      simp only [wfValue, Bool.and_eq_true] at hd
      by_cases hk : k' = k
      · simp only [pyIndex, if_pos hk, Except.ok.injEq] at h
        exact h ▸ hd.1.1
      · simp only [pyIndex, if_neg hk] at h
        exact ihr hd.2 h

/-- C1 counterexample: with the `nfsrootfs` parameter present and the
required external tool `/usr/sbin/exportfs` missing,
`ExtractNfsRootfs.validate` raises `InfrastructureError` (apply_overlay.py
line 143) instead of appending to the errors list, refuting the claim
that validation "never raises" for a missing required external tool. -/
theorem C1_validate_raises_counterexample :
    extractNfsRootfs_validate c1params .dnil emptyWorld [] =
      .error (.infrastructureError "NFS job requested but nfs-kernel-server not installed.") := by
  rfl

/-- C1, amended: `validate` records a missing required parameter (here
the missing `download_action` input) by appending to the errors list and
marking the Action invalid, and a validation pass over several children
accumulates every such error; but a missing required external binary is
not appended: `ExtractNfsRootfs.validate` and `CompressRamdisk.validate`
raise `InfrastructureError` for their missing tools, aborting the pass. -/
theorem C1_validate_error_accumulation (params data : Value) (w : World) (errors : List String) :
    (∀ g, dget params "nfsrootfs" = .ok g → truthy g = true →
      din data "download_action" = .ok false → "/usr/sbin/exportfs" ∈ w.files →
      extractNfsRootfs_validate params data w errors =
        .ok (set_errors errors "missing download_action in parameters") ∧
      action_valid (set_errors errors "missing download_action in parameters") = false) ∧
    (∀ g, dget params "nfsrootfs" = .ok g → truthy g = true →
      din data "download_action" = .ok false → "/usr/sbin/exportfs" ∉ w.files →
      extractNfsRootfs_validate params data w errors =
        .error (.infrastructureError "NFS job requested but nfs-kernel-server not installed.")) ∧
    (∀ g, dget params "ramdisk" = .ok g → truthy g = true → "mkimage" ∉ w.tools →
      compressRamdisk_validate params w errors =
        .error (.infrastructureError "Unable to find mkimage - is u-boot-tools installed?")) ∧
    (pipeline_validate
        [fun e => overlayAction_validate "/usr/lib/lava" c1ovParams c1World e,
         fun e => extractNfsRootfs_validate c1params .dnil c1World e] [] =
      .ok ["Unable to locate lava_test_shell support scripts.",
           "missing download_action in parameters"]) := by
  refine ⟨?_, ?_, ?_, by rfl⟩
  · intro g hg ht hd hw
    constructor
    · unfold extractNfsRootfs_validate
      rw [hg]
      simp [ht, hd, hw]
    · simp [action_valid, set_errors]
  · intro g hg ht hd hw
    unfold extractNfsRootfs_validate
    rw [hg]
    simp [ht, hd, hw]
  · intro g hg ht hm
    unfold compressRamdisk_validate
    rw [hg]
    simp [ht, whichTool, hm]

/-- C1 witness: the three hypothetical parts of
`C1_validate_error_accumulation` hold at concrete inputs. -/
theorem C1_validate_error_accumulation_witness :
    (extractNfsRootfs_validate c1params .dnil c1World [] =
      .ok ["missing download_action in parameters"] ∧
     action_valid ["missing download_action in parameters"] = false) ∧
    extractNfsRootfs_validate (.dcons "nfsrootfs" (.str "other.tgz") .dnil) .dnil
        { emptyWorld with files := ["/bin/sh"] } [] =
      .error (.infrastructureError "NFS job requested but nfs-kernel-server not installed.") ∧
    compressRamdisk_validate (.dcons "ramdisk" (.str "rd.gz") .dnil) emptyWorld [] =
      .error (.infrastructureError "Unable to find mkimage - is u-boot-tools installed?") := by
  refine ⟨(C1_validate_error_accumulation c1params .dnil c1World []).1 _ rfl rfl rfl
    (by decide), ?_, ?_⟩
  · exact (C1_validate_error_accumulation (.dcons "nfsrootfs" (.str "other.tgz") .dnil) .dnil
      { emptyWorld with files := ["/bin/sh"] } []).2.1 _ rfl rfl rfl (by decide)
  · exact (C1_validate_error_accumulation (.dcons "ramdisk" (.str "rd.gz") .dnil) .dnil
      emptyWorld []).2.2.1 _ rfl rfl (by decide)

/-- C2 counterexample: a run-phase read of a Data Store key that was
never written does throw.  `ExtractModules.run` raises `KeyError` on the
never-written `extract-nfsrootfs` entry, and `ApplyOverlayTftp.run`,
upon receiving the explicit absent signal for the overlay output, passes
it to `tarfile.open`, which raises `ValueError` — absence is not treated
as nothing to do. -/
theorem C2_absent_read_raises_counterexample :
    extractModules_run c2params .dnil emptyWorld ⟨0⟩ = .error (.keyError "extract-nfsrootfs") ∧
    applyOverlayTftp_run (.dcons "ramdisk" (.str "rd.gz") .dnil)
      (.dcons "compress-overlay" .dnil
        (.dcons "extract-overlay-ramdisk" (.dcons "extracted_ramdisk" (.str "/d") .dnil) .dnil))
      emptyWorld ⟨0⟩ = .error (.valueError "nothing to open") := by
  constructor <;> rfl

/-- C2, amended: a `.get` read of a never-written key returns the
explicit absent signal `None` and never throws; but the reading Actions
do not treat absence as nothing to do: `ApplyOverlayTftp.run` feeds the
absent overlay to `tarfile.open` (raising `ValueError`), and reads done
by direct subscript, as in `ExtractModules.run`, raise `KeyError` when
the entry was never written. -/
theorem C2_absent_reads_behaviour (params data : Value) (w : World) (conn : Connection) :
    (∀ d k, wfDict d = true → hasKey d k = false → dget d k = .ok none) ∧
    (∀ rd co eor dv, dget params "ramdisk" = .ok rd → isNotNone rd = true →
      pyIndex data "compress-overlay" = .ok co → wfDict co = true → hasKey co "output" = false →
      pyIndex data "extract-overlay-ramdisk" = .ok eor →
      pyIndex eor "extracted_ramdisk" = .ok dv →
      applyOverlayTftp_run params data w conn = .error (.valueError "nothing to open")) ∧
    (∀ m rd nfs, dget params "modules" = .ok m → truthy m = true →
      dget params "ramdisk" = .ok rd → truthy rd = false →
      dget params "nfsrootfs" = .ok nfs → truthy nfs = true →
      wfDict data = true → hasKey data "extract-nfsrootfs" = false →
      extractModules_run params data w conn = .error (.keyError "extract-nfsrootfs")) := by
  refine ⟨fun d k hd hk => dget_absent hd hk, ?_, ?_⟩
  · intro rd co eor dv hrd hi hco hwf hout heor hdv
    unfold applyOverlayTftp_run
    rw [hrd]
    simp [hi, hco, dget_absent hwf hout, heor, hdv, applyOverlayTftpFinish, tarOpenExtract,
      tarOpenV]
  · intro m rd nfs hm htm hrd htr hn htn hwf hk
    unfold extractModules_run
    rw [hm]
    simp [htm, hrd, htr, hn, htn, pyIndex_absent hwf hk]

/-- C2 witness: the three parts of `C2_absent_reads_behaviour` hold at
concrete inputs. -/
theorem C2_absent_reads_behaviour_witness :
    dget (.dcons "download_action" .dnil .dnil) "nfsroot" = .ok none ∧
    applyOverlayTftp_run (.dcons "ramdisk" (.str "rd2.gz") .dnil)
      (.dcons "compress-overlay" (.dcons "other" (.str "x") .dnil)
        (.dcons "extract-overlay-ramdisk" (.dcons "extracted_ramdisk" (.str "/d2") .dnil) .dnil))
      emptyWorld ⟨1⟩ = .error (.valueError "nothing to open") ∧
    extractModules_run
      (.dcons "modules" (.str "mm.tgz") (.dcons "nfsrootfs" (.str "nn.tgz") .dnil))
      (.dcons "download_action" .dnil .dnil) emptyWorld ⟨1⟩ =
      .error (.keyError "extract-nfsrootfs") := by
  refine ⟨(C2_absent_reads_behaviour .dnil .dnil emptyWorld ⟨0⟩).1 _ "nfsroot" rfl rfl, ?_, ?_⟩
  · exact (C2_absent_reads_behaviour (.dcons "ramdisk" (.str "rd2.gz") .dnil)
      (.dcons "compress-overlay" (.dcons "other" (.str "x") .dnil)
        (.dcons "extract-overlay-ramdisk" (.dcons "extracted_ramdisk" (.str "/d2") .dnil) .dnil))
      emptyWorld ⟨1⟩).2.1 _ _ _ _ rfl rfl rfl rfl rfl rfl rfl
  · exact (C2_absent_reads_behaviour
      (.dcons "modules" (.str "mm.tgz") (.dcons "nfsrootfs" (.str "nn.tgz") .dnil))
      (.dcons "download_action" .dnil .dnil) emptyWorld ⟨1⟩).2.2 _ _ _ rfl rfl rfl rfl rfl rfl
      rfl rfl

/-- C3 counterexample: two concurrent invocations of
`getJobForBoard_impl` for the same idle device with one queued job can
BOTH return the job — the interleaving in which both read before either
saves trips no uniqueness conflict, because the constraint on
`current_job` only rejects a *different* device row holding the job
(dbjobsource.py lines 46-52 and the comment admitting this case).  This
refutes the claimed at-most-one outcome for same-device claimants. -/
theorem C3_same_device_double_claim_counterexample :
    (raceRun "panda01" c3race [true, false, true, true, false, false]).phA = .done (some 5) ∧
    (raceRun "panda01" c3race [true, false, true, true, false, false]).phB = .done (some 5) := by
  constructor <;> rfl

/-- C3, amended: the claim is a no-op returning none when the device is
not idle or has no queued job, and serially it binds the queued job to
the device; but it is NOT atomic against concurrent claimants for the
same device: the conflict-and-retry protects only against a different
device row already holding the job, and an interleaving exists in which
both same-device claimants return the job. -/
theorem C3_claim_not_atomic_same_device (db : SchedDB) (board : String) (fuel : Nat) :
    (∀ dev, getDevice db board = some dev → dev.status = .running →
      runClaim board (fuel + 1) db .start = (db, .done none)) ∧
    (∀ dev, getDevice db board = some dev → dev.status = .idle →
      firstSubmitted db board = none →
      runClaim board (fuel + 1) db .start = (db, .done none)) ∧
    (runClaim "panda01" 3 c3db .start =
      ({ devices := [("panda01", { status := .running, currentJob := some 5 })],
         jobs := [(5, { status := .running, target := "panda01" })] }, .done (some 5))) ∧
    ((raceRun "panda01" c3race [false, true, false, true, true, false]).phA = .done (some 5) ∧
     (raceRun "panda01" c3race [false, true, false, true, true, false]).phB = .done (some 5)) := by
  refine ⟨?_, ?_, by rfl, by constructor <;> rfl⟩
  · intro dev hdev hrun
    have hstep : claimStep board db .start = (db, .done none) := by
      unfold claimStep
      rw [hdev]
      simp [hrun]
    unfold runClaim
    simp [hstep, runClaim_done]
  · intro dev hdev hidle hjobs
    have hstep : claimStep board db .start = (db, .done none) := by
      unfold claimStep
      rw [hdev]
      simp [hidle, hjobs]
    unfold runClaim
    simp [hstep, runClaim_done]

/-- C3 witness: the two hypothetical no-op parts of
`C3_claim_not_atomic_same_device` hold at concrete databases. -/
theorem C3_claim_not_atomic_same_device_witness :
    runClaim "panda02" 4
        { devices := [("panda02", { status := .running, currentJob := none })], jobs := [] }
        .start =
      ({ devices := [("panda02", { status := .running, currentJob := none })], jobs := [] },
        .done none) ∧
    runClaim "panda03" 4
        { devices := [("panda03", { status := .idle, currentJob := none })], jobs := [] }
        .start =
      ({ devices := [("panda03", { status := .idle, currentJob := none })], jobs := [] },
        .done none) := by
  constructor
  · exact (C3_claim_not_atomic_same_device _ "panda02" 3).1 _ rfl rfl
  · exact (C3_claim_not_atomic_same_device _ "panda03" 3).2.1 _ rfl rfl rfl

/-- C8: each of `ExtractNfsRootfs.run`, `ExtractRamdisk.run`,
`ExtractModules.run` and `CompressRamdisk.run` is a no-op when its
triggering deploy parameter is absent: it returns the Connection it
received and leaves the Data Store and the world unchanged. -/
theorem C8_subactions_noop_without_trigger (params data : Value) (w : World) (conn : Connection) :
    (dget params "nfsrootfs" = .ok none →
      extractNfsRootfs_run params data w conn = .ok (data, w, conn)) ∧
    (dget params "ramdisk" = .ok none →
      extractRamdisk_run params data w conn = .ok (data, w, conn)) ∧
    (dget params "modules" = .ok none →
      extractModules_run params data w conn = .ok (data, w, conn)) ∧
    (dget params "ramdisk" = .ok none →
      compressRamdisk_run params data w conn = .ok (data, w, conn)) := by
  refine ⟨fun h => ?_, fun h => ?_, fun h => ?_, fun h => ?_⟩
  · unfold extractNfsRootfs_run; rw [h]; rfl
  · unfold extractRamdisk_run; rw [h]; rfl
  · unfold extractModules_run; rw [h]; rfl
  · unfold compressRamdisk_run; rw [h]; rfl

/-- C8 witness: all four no-op conclusions hold at a concrete state with
every triggering parameter absent. -/
theorem C8_subactions_noop_without_trigger_witness :
    extractNfsRootfs_run .dnil .dnil emptyWorld ⟨0⟩ = .ok (.dnil, emptyWorld, ⟨0⟩) ∧
    extractRamdisk_run .dnil .dnil emptyWorld ⟨0⟩ = .ok (.dnil, emptyWorld, ⟨0⟩) ∧
    extractModules_run .dnil .dnil emptyWorld ⟨0⟩ = .ok (.dnil, emptyWorld, ⟨0⟩) ∧
    compressRamdisk_run .dnil .dnil emptyWorld ⟨0⟩ = .ok (.dnil, emptyWorld, ⟨0⟩) := by
  obtain ⟨h1, h2, h3, h4⟩ := C8_subactions_noop_without_trigger .dnil .dnil emptyWorld ⟨0⟩
  exact ⟨h1 rfl, h2 rfl, h3 rfl, h4 rfl⟩

/-- C9: `ApplyOverlayTftp.run` has no idempotency guard: with both the
`ramdisk` and `nfsrootfs` parameters absent it opens the never-selected
overlay (`tarfile.open(None)`) and raises `ValueError` instead of
returning the Connection; and any successful run requires one of the
two parameters plus the corresponding Data Store entries
(`tftpPrecond`). -/
theorem C9_applyOverlayTftp_lacks_guard (params data : Value) (w : World) (conn : Connection) :
    (dget params "ramdisk" = .ok none → dget params "nfsrootfs" = .ok none →
      applyOverlayTftp_run params data w conn = .error (.valueError "nothing to open")) ∧
    (∀ r, applyOverlayTftp_run params data w conn = .ok r → tftpPrecond params data = true) := by
  constructor
  · intro h1 h2
    unfold applyOverlayTftp_run
    rw [h1]
    simp [isNotNone, h2, applyOverlayTftpFinish, tarOpenExtract, tarOpenV]
  · intro r h
    unfold applyOverlayTftp_run applyOverlayTftpFinish at h
    unfold tftpPrecond
    simp only [exceptBind_def] at h
    repeat' split at h
    all_goals simp_all
    all_goals (rename_i hq; obtain ⟨⟨p, hp, _, _⟩, ⟨s, hs⟩⟩ := tarOpenExtract_ok hq; simp_all)

/-- C9 witness: both parts of `C9_applyOverlayTftp_lacks_guard` hold at
concrete inputs (a both-absent state raising `ValueError`, and a
successful run whose precondition is confirmed). -/
theorem C9_applyOverlayTftp_lacks_guard_witness :
    applyOverlayTftp_run .dnil .dnil emptyWorld ⟨2⟩ = .error (.valueError "nothing to open") ∧
    tftpPrecond c9okParams c9okData = true := by
  constructor
  · exact (C9_applyOverlayTftp_lacks_guard .dnil .dnil emptyWorld ⟨2⟩).1 rfl rfl
  · exact (C9_applyOverlayTftp_lacks_guard c9okParams c9okData c9okWorld ⟨2⟩).2
      (c9okData, c9okWorld, ⟨2⟩) rfl

/-- C4 counterexample: `BootMonitorPyOCD.accepts` does not return False
on every failing input: on a device dict without an `actions` entry the
nested subscript raises `KeyError` (pyocd.py line 46) instead of
returning False. -/
theorem C4_accepts_raises_counterexample :
    bootMonitorPyOCD_accepts .dnil .dnil = .error (.keyError "actions") ∧
    ¬ bootMonitorPyOCD_accepts .dnil .dnil = .ok false := by
  refine ⟨rfl, ?_⟩
  intro h
  simp [bootMonitorPyOCD_accepts, pyIndex] at h

/-- C4, amended: for a device whose `actions.boot.methods` path
resolves, `accepts` never raises and returns True exactly when `pyocd`
is among the boot methods, the parameters bind `method` to the string
`monitor`, and the device has a `board_id` key; purity is visible in
the embedding, whose result depends only on the two arguments and which
touches no `World`. -/
theorem C4_accepts_characterization (device params : Value) :
    ∀ a b m, pyIndex device "actions" = .ok a → pyIndex a "boot" = .ok b →
      pyIndex b "methods" = .ok m → wfDict m = true → wfDict params = true →
      wfDict device = true →
      (∃ r, bootMonitorPyOCD_accepts device params = .ok r) ∧
      (bootMonitorPyOCD_accepts device params = .ok true ↔
        (hasKey m "pyocd" = true ∧ pyIndex params "method" = .ok (.str "monitor") ∧
         hasKey device "board_id" = true)) := by
  intro a b m h1 h2 h3 hwm hwp hwd
  by_cases hk1 : hasKey m "pyocd"
  · by_cases hk2 : hasKey params "method"
    · obtain ⟨v, hv⟩ := hasKey_pyIndex hk2
      by_cases hm : v = .str "monitor"
      · subst hm
        by_cases hk3 : hasKey device "board_id"
        · have hacc : bootMonitorPyOCD_accepts device params = .ok true := by
            unfold bootMonitorPyOCD_accepts
            rw [h1]
            simp [h2, h3, din_dict _ hwm, hk1, din_dict _ hwp, hk2, hv, din_dict _ hwd, hk3]
          rw [hacc]
          exact ⟨⟨true, rfl⟩, by simp [hk1, hk3, hv]⟩
        · have hacc : bootMonitorPyOCD_accepts device params = .ok false := by
            unfold bootMonitorPyOCD_accepts
            rw [h1]
            simp [h2, h3, din_dict _ hwm, hk1, din_dict _ hwp, hk2, hv, din_dict _ hwd, hk3]
          rw [hacc]
          refine ⟨⟨false, rfl⟩, by simp [hk3]⟩
      · have hacc : bootMonitorPyOCD_accepts device params = .ok false := by
          unfold bootMonitorPyOCD_accepts
          rw [h1]
          simp [h2, h3, din_dict _ hwm, hk1, din_dict _ hwp, hk2, hv, hm]
        rw [hacc]
        refine ⟨⟨false, rfl⟩, ?_⟩
        simp only [hv]
        constructor
        · intro hc; cases hc
        · rintro ⟨-, hmon, -⟩
          cases hmon
          exact absurd rfl hm
    · have hacc : bootMonitorPyOCD_accepts device params = .ok false := by
        unfold bootMonitorPyOCD_accepts
        rw [h1]
        simp [h2, h3, din_dict _ hwm, hk1, din_dict _ hwp, hk2]
      rw [hacc]
      refine ⟨⟨false, rfl⟩, ?_⟩
      constructor
      · intro hc; cases hc
      · rintro ⟨-, hmon, -⟩
        exact absurd (pyIndex_hasKey hmon) hk2
  · have hacc : bootMonitorPyOCD_accepts device params = .ok false := by
      unfold bootMonitorPyOCD_accepts
      rw [h1]
      simp [h2, h3, din_dict _ hwm, hk1]
    rw [hacc]
    refine ⟨⟨false, rfl⟩, ?_⟩
    constructor
    · intro hc; cases hc
    · rintro ⟨hp, -, -⟩
      exact absurd hp hk1

/-- C10: when `CompressOverlay.run` enters its run phase with recorded
validation errors while the overlay scratch location exists, it returns
the received Connection immediately, leaving the Data Store and the
world unchanged — no tarball is created and no `output` entry written,
so downstream consumers observe absence rather than an error. -/
theorem C10_compressOverlay_skips_when_invalid (outputDir level : String) (errors : List String) (data : Value) (w : World)
    (conn : Connection) :
    ∀ lo p, errors ≠ [] → pyIndex data "lava-overlay" = .ok lo → wfDict lo = true →
      pyIndex lo "location" = .ok (.str p) → p ∈ w.files →
      compressOverlay_run outputDir level errors data w conn = .ok (data, w, conn) := by
  intro lo p hne hlo hwf hloc hp
  unfold compressOverlay_run
  rw [hlo]
  simp [din_dict _ hwf, pyIndex_hasKey hloc, hloc, asStr, hp, hne, List.isEmpty_iff]

/-- C10 witness: the skip behaviour at a concrete invalid state. -/
theorem C10_compressOverlay_skips_when_invalid_witness :
    compressOverlay_run "/out" "1.3.2" ["failed validation"]
      (.dcons "lava-overlay" (.dcons "location" (.str "/scratch") .dnil) .dnil)
      { emptyWorld with files := ["/scratch"] } ⟨3⟩ =
      .ok (.dcons "lava-overlay" (.dcons "location" (.str "/scratch") .dnil) .dnil,
        { emptyWorld with files := ["/scratch"] }, ⟨3⟩) := by
  exact C10_compressOverlay_skips_when_invalid "/out" "1.3.2" ["failed validation"] _ _ ⟨3⟩ _ "/scratch" (by simp) rfl rfl rfl
    (by simp)

theorem dsetE_ok {d : Value} {k : String} {v e : Value} (h : dsetE d k v = .ok e) :
    d.isDict = true ∧ e = dset d k v := by
  unfold dsetE at h
  by_cases hid : d.isDict = true
  · rw [if_pos hid] at h
    exact ⟨hid, (Except.ok.injEq _ _ ▸ h).symm⟩
  · rw [if_neg hid] at h
    cases h

/-- C5: `CompressOverlay.run` raises `RuntimeError` before any
archiving when the scratch location is not recorded under the
`lava-overlay` entry or is recorded but absent from the filesystem; and
whenever a valid run returns successfully it has recorded the produced
tarball path under `compress-overlay` / `output` and created that file. -/
theorem C5_compressOverlay_fail_loudly_and_record (outputDir level : String) (errors : List String) (data : Value) (w : World)
    (conn : Connection) :
    (∀ lo, pyIndex data "lava-overlay" = .ok lo → wfDict lo = true → hasKey lo "location" = false →
      compressOverlay_run outputDir level errors data w conn =
        .error (.runtimeError "Missing lava overlay location")) ∧
    (∀ lo p, pyIndex data "lava-overlay" = .ok lo → wfDict lo = true →
      pyIndex lo "location" = .ok (.str p) → p ∉ w.files →
      compressOverlay_run outputDir level errors data w conn =
        .error (.runtimeError "Unable to find overlay location")) ∧
    (∀ r, errors = [] → wfValue data = true →
      compressOverlay_run outputDir level errors data w conn = .ok r →
      storeGet2 r.1 "compress-overlay" "output" =
        some (.str (outputDir ++ "/overlay-" ++ level ++ ".tar.gz")) ∧
      (outputDir ++ "/overlay-" ++ level ++ ".tar.gz") ∈ r.2.1.files) := by
  refine ⟨?_, ?_, ?_⟩
  · intro lo hlo hwf hk
    unfold compressOverlay_run
    rw [hlo]
    simp [din_dict _ hwf, hk]
  · intro lo p hlo hwf hloc hp
    unfold compressOverlay_run
    rw [hlo]
    simp [din_dict _ hwf, pyIndex_hasKey hloc, hloc, asStr, hp]
  · intro r he hwv h
    subst he
    unfold compressOverlay_run at h
    simp only [exceptBind_def] at h
    cases hlo : pyIndex data "lava-overlay" with
    | error e => simp [hlo] at h
    | ok lo =>
    simp only [hlo] at h
    cases hdin : din lo "location" with
    | error e => simp [hdin] at h
    | ok hl =>
    simp only [hdin] at h
    cases hl with
    | false => simp at h
    | true =>
    simp at h
    cases hlocV : pyIndex lo "location" with
    | error e => simp [hlocV] at h
    | ok locV =>
    simp only [hlocV] at h
    cases hstr : asStr locV with
    | error e => simp [hstr] at h
    | ok loc =>
    simp only [hstr] at h
    by_cases hfl : loc ∈ w.files
    · simp only [hfl, not_true_eq_false, if_false] at h
      cases hltr : pyIndex data "lava_test_results_dir" with
      | error e => simp [hltr] at h
      | ok ltr =>
      simp only [hltr] at h
      cases htc : w.tarCreateOk with
      | false => simp [htc] at h
      | true =>
      simp only [htc, if_true] at h
      rw [if_neg (by simp)] at h
      cases hco : pyIndex data "compress-overlay" with
      | error e => simp [hco] at h
      | ok entry =>
      simp only [hco] at h
      cases hset : dsetE entry "output" (.str (outputDir ++ "/overlay-" ++ level ++ ".tar.gz")) with
      | error e => simp [hset] at h
      | ok entry1 =>
      simp only [hset] at h
      rw [Except.ok.injEq] at h
      subst h
      obtain ⟨hid, hent⟩ := dsetE_ok hset
      subst hent
      have hwfdata : wfDict data = true := wfValue_wfDict hwv (pyIndex_isDict hlo)
      have hwfentry : wfDict entry = true :=
        wfValue_wfDict (wfValue_pyIndex hwv hco) hid
      constructor
      · unfold storeGet2
        simp [pyIndex_dset _ _ hwfdata, dget_dset _ _ hwfentry]
      · simp
    · simp [hfl] at h

/-- C5 witness: the three parts of
`C5_compressOverlay_fail_loudly_and_record` hold at concrete stores. -/
theorem C5_compressOverlay_fail_loudly_and_record_witness :
    compressOverlay_run "/out" "1.4" [] (.dcons "lava-overlay" .dnil .dnil) emptyWorld ⟨4⟩ =
      .error (.runtimeError "Missing lava overlay location") ∧
    compressOverlay_run "/out" "1.4" []
      (.dcons "lava-overlay" (.dcons "location" (.str "/gone") .dnil) .dnil) emptyWorld ⟨4⟩ =
      .error (.runtimeError "Unable to find overlay location") ∧
    (storeGet2 c5result.1 "compress-overlay" "output" = some (.str "/out/overlay-1.4.tar.gz") ∧
     "/out/overlay-1.4.tar.gz" ∈ c5result.2.1.files) := by
  refine ⟨?_, ?_, ?_⟩
  · exact (C5_compressOverlay_fail_loudly_and_record "/out" "1.4" [] (.dcons "lava-overlay" .dnil .dnil) emptyWorld ⟨4⟩).1 _
      rfl rfl rfl
  · exact (C5_compressOverlay_fail_loudly_and_record "/out" "1.4" [] (.dcons "lava-overlay" (.dcons "location" (.str "/gone") .dnil)
      .dnil) emptyWorld ⟨4⟩).2.1 _ "/gone" rfl rfl rfl (by simp [emptyWorld])
  · exact (C5_compressOverlay_fail_loudly_and_record "/out" "1.4" [] c5data c5World ⟨4⟩).2.2 c5result rfl rfl rfl

theorem asStr_ok {v : Value} {s : String} (h : asStr v = .ok s) : v = .str s := by
  cases v <;> simp_all [asStr]

/-- C6: `ApplyOverlayImage.run` raises `RuntimeError` without
extracting anything when the recorded overlay artifact is absent (falsy)
in the Data Store, and when the recorded mount directory is not an
actual mount point; every successful run passed over an actually-mounted
directory, so it never silently proceeds past an unmounted target. -/
theorem C6_applyOverlayImage_checks (data : Value) (w : World) (conn : Connection) :
    (∀ co o, pyIndex data "compress-overlay" = .ok co → dget co "output" = .ok o →
      truthy o = false →
      applyOverlayImage_run data w conn = .error (.runtimeError "Unable to find the overlay")) ∧
    (∀ co o lm m, pyIndex data "compress-overlay" = .ok co → dget co "output" = .ok o →
      truthy o = true → pyIndex data "loop_mount" = .ok lm →
      pyIndex lm "mntdir" = .ok (.str m) → m ∉ w.mounts →
      applyOverlayImage_run data w conn =
        .error (.runtimeError
          ("Image overlay requested to be applied but " ++ m ++ " is not a mountpoint"))) ∧
    (∀ r, applyOverlayImage_run data w conn = .ok r →
      ∃ lm m, pyIndex data "loop_mount" = .ok lm ∧ pyIndex lm "mntdir" = .ok (.str m) ∧
        m ∈ w.mounts) := by
  refine ⟨?_, ?_, ?_⟩
  · intro co o h1 h2 h3
    unfold applyOverlayImage_run
    rw [h1]
    simp [h2, h3]
  · intro co o lm m h1 h2 h3 h4 h5 h6
    unfold applyOverlayImage_run
    rw [h1]
    simp [h2, h3, h4, h5, asStr, h6]
  · intro r h
    unfold applyOverlayImage_run at h
    simp only [exceptBind_def] at h
    cases h1 : pyIndex data "compress-overlay" with
    | error e => simp [h1] at h
    | ok co =>
    simp only [h1] at h
    cases h2 : dget co "output" with
    | error e => simp [h2] at h
    | ok o =>
    simp only [h2] at h
    by_cases h3 : truthy o
    · rw [if_neg (by simp [h3])] at h
      cases h4 : pyIndex data "loop_mount" with
      | error e => simp [h4] at h
      | ok lm =>
      simp only [h4] at h
      cases h5 : pyIndex lm "mntdir" with
      | error e => simp [h5] at h
      | ok mntV =>
      simp only [h5] at h
      cases h6 : asStr mntV with
      | error e => simp [h6] at h
      | ok m =>
      simp only [h6] at h
      by_cases h7 : m ∈ w.mounts
      · refine ⟨lm, m, rfl, ?_, h7⟩
        rw [h5, asStr_ok h6]
      · simp [h7] at h
    · simp [h3] at h

/-- C7: every embedded non-boot deploy action returns exactly the
Connection it received: whenever any of the seven `run` embeddings
returns successfully, the returned Connection is the argument one. -/
theorem C7_run_returns_received_connection (params data : Value) (w : World) (conn : Connection)
    (outputDir level : String) (errors : List String) :
    (∀ d' w' c', applyOverlayImage_run data w conn = .ok (d', w', c') → c' = conn) ∧
    (∀ d' w' c', applyOverlayTftp_run params data w conn = .ok (d', w', c') → c' = conn) ∧
    (∀ d' w' c', extractNfsRootfs_run params data w conn = .ok (d', w', c') → c' = conn) ∧
    (∀ d' w' c', extractModules_run params data w conn = .ok (d', w', c') → c' = conn) ∧
    (∀ d' w' c', extractRamdisk_run params data w conn = .ok (d', w', c') → c' = conn) ∧
    (∀ d' w' c', compressRamdisk_run params data w conn = .ok (d', w', c') → c' = conn) ∧
    (∀ d' w' c', compressOverlay_run outputDir level errors data w conn = .ok (d', w', c') →
      c' = conn) := by
  refine ⟨?_, ?_, ?_, ?_, ?_, ?_, ?_⟩
  · intro d' w' c' h
    unfold applyOverlayImage_run at h
    simp only [exceptBind_def, exceptPure_def, exceptThrow_def] at h
    repeat' split at h
    all_goals simp_all
  · intro d' w' c' h
    unfold applyOverlayTftp_run applyOverlayTftpFinish at h
    simp only [exceptBind_def, exceptPure_def, exceptThrow_def] at h
    repeat' split at h
    all_goals simp_all
  · intro d' w' c' h
    unfold extractNfsRootfs_run at h
    simp only [exceptBind_def, exceptPure_def, exceptThrow_def] at h
    repeat' split at h
    all_goals simp_all
  · intro d' w' c' h
    unfold extractModules_run at h
    simp only [exceptBind_def, exceptPure_def, exceptThrow_def] at h
    repeat' split at h
    all_goals simp_all
  · intro d' w' c' h
    unfold extractRamdisk_run at h
    simp only [exceptBind_def, exceptPure_def, exceptThrow_def] at h
    repeat' split at h
    all_goals simp_all
  · intro d' w' c' h
    unfold compressRamdisk_run at h
    simp only [exceptBind_def, exceptPure_def, exceptThrow_def] at h
    repeat' split at h
    all_goals simp_all
  · intro d' w' c' h
    unfold compressOverlay_run at h
    simp only [exceptBind_def, exceptPure_def, exceptThrow_def] at h
    repeat' split at h
    all_goals simp_all

/-- C4 witness: `accepts` returns True on a concrete device/parameter
pair satisfying all three conditions. -/
theorem C4_accepts_characterization_witness : bootMonitorPyOCD_accepts c4device c4params = .ok true := by
  exact ((C4_accepts_characterization c4device c4params
    (.dcons "boot" (.dcons "methods" (.dcons "pyocd" .dnil .dnil) .dnil) .dnil)
    (.dcons "methods" (.dcons "pyocd" .dnil .dnil) .dnil)
    (.dcons "pyocd" .dnil .dnil) rfl rfl rfl rfl rfl rfl).2).mpr ⟨rfl, rfl, rfl⟩

/-- C6 witness: the three parts of `C6_applyOverlayImage_checks` hold
at concrete stores. -/
theorem C6_applyOverlayImage_checks_witness :
    applyOverlayImage_run
      (.dcons "compress-overlay" .dnil
        (.dcons "loop_mount" (.dcons "mntdir" (.str "/mnt") .dnil) .dnil)) emptyWorld ⟨5⟩ =
      .error (.runtimeError "Unable to find the overlay") ∧
    applyOverlayImage_run c6data emptyWorld ⟨5⟩ =
      .error (.runtimeError
        ("Image overlay requested to be applied but " ++ "/mnt" ++ " is not a mountpoint")) ∧
    (∃ lm m, pyIndex c6data "loop_mount" = .ok lm ∧ pyIndex lm "mntdir" = .ok (.str m) ∧
      m ∈ c6World.mounts) := by
  refine ⟨?_, ?_, ?_⟩
  · exact (C6_applyOverlayImage_checks _ emptyWorld ⟨5⟩).1 _ _ rfl rfl rfl
  · exact (C6_applyOverlayImage_checks c6data emptyWorld ⟨5⟩).2.1 _ _ _ "/mnt" rfl rfl rfl rfl rfl
      (by simp [emptyWorld])
  · exact (C6_applyOverlayImage_checks c6data c6World ⟨5⟩).2.2 (c6data, c6World, ⟨5⟩) rfl

/-- C7 witness: each conjunct of `C7_run_returns_received_connection`
applied at a concrete successful run. -/
theorem C7_run_returns_received_connection_witness :
    (applyOverlayImage_run c6data c6World ⟨6⟩ = .ok (c6data, c6World, ⟨6⟩) ∧
      (Connection.mk 6) = ⟨6⟩) ∧
    (applyOverlayTftp_run c9okParams c9okData c9okWorld ⟨6⟩ =
        .ok (c9okData, c9okWorld, ⟨6⟩) ∧ (Connection.mk 6) = ⟨6⟩) ∧
    (extractNfsRootfs_run .dnil .dnil emptyWorld ⟨6⟩ = .ok (.dnil, emptyWorld, ⟨6⟩) ∧
      (Connection.mk 6) = ⟨6⟩) ∧
    (extractModules_run .dnil .dnil emptyWorld ⟨6⟩ = .ok (.dnil, emptyWorld, ⟨6⟩) ∧
      (Connection.mk 6) = ⟨6⟩) ∧
    (extractRamdisk_run .dnil .dnil emptyWorld ⟨6⟩ = .ok (.dnil, emptyWorld, ⟨6⟩) ∧
      (Connection.mk 6) = ⟨6⟩) ∧
    (compressRamdisk_run .dnil .dnil emptyWorld ⟨6⟩ = .ok (.dnil, emptyWorld, ⟨6⟩) ∧
      (Connection.mk 6) = ⟨6⟩) ∧
    (compressOverlay_run "/out" "1.4" [] c5data c5World ⟨6⟩ = .ok (c5result.1, c5result.2.1, ⟨6⟩) ∧
      (Connection.mk 6) = ⟨6⟩) := by
  refine ⟨⟨rfl, ?_⟩, ⟨rfl, ?_⟩, ⟨rfl, ?_⟩, ⟨rfl, ?_⟩, ⟨rfl, ?_⟩, ⟨rfl, ?_⟩, ⟨rfl, ?_⟩⟩
  · exact (C7_run_returns_received_connection .dnil c6data c6World ⟨6⟩ "/out" "1.4" []).1 c6data c6World ⟨6⟩ rfl
  · exact (C7_run_returns_received_connection c9okParams c9okData c9okWorld ⟨6⟩ "/out" "1.4" []).2.1 c9okData c9okWorld ⟨6⟩ rfl
  · exact (C7_run_returns_received_connection .dnil .dnil emptyWorld ⟨6⟩ "/out" "1.4" []).2.2.1 .dnil emptyWorld ⟨6⟩ rfl
  · exact (C7_run_returns_received_connection .dnil .dnil emptyWorld ⟨6⟩ "/out" "1.4" []).2.2.2.1 .dnil emptyWorld ⟨6⟩ rfl
  · exact (C7_run_returns_received_connection .dnil .dnil emptyWorld ⟨6⟩ "/out" "1.4" []).2.2.2.2.1 .dnil emptyWorld ⟨6⟩ rfl
  · exact (C7_run_returns_received_connection .dnil .dnil emptyWorld ⟨6⟩ "/out" "1.4" []).2.2.2.2.2.1 .dnil emptyWorld ⟨6⟩ rfl
  · exact (C7_run_returns_received_connection .dnil c5data c5World ⟨6⟩ "/out" "1.4" []).2.2.2.2.2.2 c5result.1 c5result.2.1
      ⟨6⟩ rfl

end Lava